import Mathlib

/-!
# Verification of the aletheia / rhodibot RSR compliance checker

Shallow embedding of `src/extraction/rhodibot/src/lib.rs` (the library is the
authoritative implementation; `src/src/main.rs` contains the same
`check_path_security`, `check_file` and `check_dir` logic).

Paths are modelled as Rust `PathBuf`s on Unix: an absoluteness flag plus the
list of normal components.  The filesystem is modelled as an abstract record
of the five filesystem queries the code performs (`fs::symlink_metadata`,
`fs::read_link`, `Path::canonicalize`, `Path::is_file`, `Path::is_dir`);
every function of the source becomes a pure function of that record.
`SystemTime` fields (`verified_at`) are omitted: no verified property
mentions them.
-/

/-- A filesystem path: Rust `PathBuf` on Unix, as absoluteness flag plus the
list of normal components (canonicalized paths never contain `.` or `..`
components; a literal `..` is just the component string `".."`). -/
structure RPath where
  absolute : Bool
  components : List String
deriving DecidableEq, Repr

namespace RPath

/-- The component list as Rust's `Components` iterator yields it:
`none` stands for the `RootDir` component of an absolute path. -/
def rcomponents (p : RPath) : List (Option String) :=
  (if p.absolute then [none] else []) ++ p.components.map some

/-- Rust `Path::starts_with`: component-wise prefix test on the
`Components` iterators (never a raw-string prefix). -/
def startsWith (p base : RPath) : Bool :=
  base.rcomponents.isPrefixOf p.rcomponents

/-- Rust `Path::join`: an absolute argument replaces the whole path,
a relative one is appended. -/
def join (p q : RPath) : RPath :=
  if q.absolute then q
  else { absolute := p.absolute, components := p.components ++ q.components }

/-- `base.join(name)` for a single-component file name. -/
def joinName (p : RPath) (name : String) : RPath :=
  p.join { absolute := false, components := [name] }

/-- Rust `Path::parent`: `none` for `/` and for the empty path, otherwise
drops the last component. -/
def parent (p : RPath) : Option RPath :=
  match p.components with
  | [] => none
  | _ => some { absolute := p.absolute, components := p.components.dropLast }

/-- Rust `Path::is_absolute`. -/
def isAbsolute (p : RPath) : Bool := p.absolute

/-- Rust `Path::display` rendering, used only inside warning messages. -/
def display (p : RPath) : String :=
  (if p.absolute then "/" else "") ++ String.intercalate "/" p.components

end RPath

/-- The file type reported by `fs::symlink_metadata(path)?.file_type()`. -/
inductive FileType where
  | file
  | dir
  | symlink
deriving DecidableEq, Repr

/-- Abstract filesystem: one field per filesystem query the source performs.
`none` models an `Err` result of the fallible calls. `isFile` / `isDir`
model `Path::is_file` / `Path::is_dir`, which follow symlinks. -/
structure FS where
  symlinkMeta : RPath → Option FileType
  readLink : RPath → Option RPath
  canonicalize : RPath → Option RPath
  isFile : RPath → Bool
  isDir : RPath → Bool

/-- `ComplianceLevel` from lib.rs. -/
inductive ComplianceLevel where
  | Bronze
  | Silver
  | Gold
  | Platinum
deriving DecidableEq, Repr

/-- `WarningLevel` from lib.rs. -/
inductive WarningLevel where
  | Info
  | Warning
  | Critical
deriving DecidableEq, Repr

/-- `CheckResult` from lib.rs. -/
structure CheckResult where
  category : String
  item : String
  passed : Bool
  required_for : ComplianceLevel
  description : Option String
deriving DecidableEq, Repr

/-- `SecurityWarning` from lib.rs. -/
structure SecurityWarning where
  level : WarningLevel
  message : String
  path : Option RPath
deriving DecidableEq, Repr

/-- `ComplianceReport` from lib.rs (the `verified_at : SystemTime` field is
omitted: real time is outside the embedding and no claim mentions it). -/
structure ComplianceReport where
  checks : List CheckResult
  warnings : List SecurityWarning
  repository_path : RPath
deriving DecidableEq, Repr

namespace ComplianceReport

/-- `ComplianceReport::new`. -/
def new (path : RPath) : ComplianceReport :=
  { checks := [], warnings := [], repository_path := path }

/-- `ComplianceReport::add_check`. -/
def add_check (r : ComplianceReport) (category item : String) (passed : Bool)
    (level : ComplianceLevel) : ComplianceReport :=
  { r with checks := r.checks ++
      [{ category := category, item := item, passed := passed,
         required_for := level, description := none }] }

/-- `ComplianceReport::add_warning`. -/
def add_warning (r : ComplianceReport) (level : WarningLevel) (message : String)
    (path : Option RPath) : ComplianceReport :=
  { r with warnings := r.warnings ++
      [{ level := level, message := message, path := path }] }

/-- `ComplianceReport::bronze_compliance`. -/
def bronze_compliance (r : ComplianceReport) : Bool :=
  (r.checks.filter fun c => c.required_for = ComplianceLevel.Bronze).all
    fun c => c.passed

/-- `ComplianceReport::silver_compliance`. -/
def silver_compliance (r : ComplianceReport) : Bool :=
  r.bronze_compliance &&
    (r.checks.filter fun c => c.required_for = ComplianceLevel.Silver).all
      fun c => c.passed

/-- `ComplianceReport::has_critical_warnings`. -/
def has_critical_warnings (r : ComplianceReport) : Bool :=
  r.warnings.any fun w => w.level = WarningLevel.Critical

/-- `ComplianceReport::highest_level`. -/
def highest_level (r : ComplianceReport) : Option ComplianceLevel :=
  if !r.bronze_compliance || r.has_critical_warnings then none
  else if r.silver_compliance then some ComplianceLevel.Silver
  else some ComplianceLevel.Bronze

/-- `ComplianceReport::passed_count`. -/
def passed_count (r : ComplianceReport) : Nat :=
  (r.checks.filter fun c => c.passed).length

/-- `ComplianceReport::total_count`. -/
def total_count (r : ComplianceReport) : Nat :=
  r.checks.length

/-- `ComplianceReport::percentage`, with the `f64` arithmetic modelled over
the exact rationals: `(passed as f64 / total as f64) * 100.0`, guarded so a
total of zero yields `0.0` instead of a division. -/
def percentage (r : ComplianceReport) : ℚ :=
  if r.total_count = 0 then 0
  else ((r.passed_count : ℚ) / (r.total_count : ℚ)) * 100

end ComplianceReport

/-- `PathCheckResult` from lib.rs. -/
structure PathCheckResult where
  «exists» : Bool
  is_symlink : Bool
  escapes_repo : Bool
  target : Option RPath
deriving DecidableEq, Repr

/-- `check_path_security` from lib.rs (identical in src/src/main.rs). -/
def check_path_security (fs : FS) (path repo_root : RPath) : PathCheckResult :=
  match fs.symlinkMeta path with
  | none =>
      { «exists» := false, is_symlink := false, escapes_repo := false,
        target := none }
  | some ft =>
      if ft ≠ FileType.symlink then
        { «exists» := true, is_symlink := false, escapes_repo := false,
          target := none }
      else
        match fs.readLink path with
        | none =>
            { «exists» := true, is_symlink := true, escapes_repo := false,
              target := none }
        | some target =>
            let resolved_target :=
              if target.isAbsolute then target
              else (path.parent.map fun p => p.join target).getD target
            let canonical_root := (fs.canonicalize repo_root).getD repo_root
            let canonical_target :=
              (fs.canonicalize resolved_target).getD resolved_target
            let escapes_repo := !canonical_target.startsWith canonical_root
            { «exists» := true, is_symlink := true, escapes_repo := escapes_repo,
              target := some resolved_target }

/-- `check_file` from lib.rs: probe `base.join(filename)`, emit the symlink
warnings, return `security.exists && path.is_file()` together with the
updated report.  (Warning texts follow the source format strings, with the
single-quote decorations around names dropped.) -/
def check_file (fs : FS) (base : RPath) (filename : String)
    (report : ComplianceReport) : Bool × ComplianceReport :=
  let path := base.joinName filename
  let security := check_path_security fs path report.repository_path
  let report :=
    if security.is_symlink then
      if security.escapes_repo then
        report.add_warning WarningLevel.Critical
          ("Symlink " ++ filename ++ " points outside repository to " ++
            ((security.target.map fun p => p.display).getD ""))
          (some path)
      else
        report.add_warning WarningLevel.Info
          (filename ++ " is a symlink (within repository bounds)")
          (some path)
    else report
  (security.exists && fs.isFile path, report)

/-- `check_dir` from lib.rs: same shape as `check_file` with the directory
warning texts and `path.is_dir()`. -/
def check_dir (fs : FS) (base : RPath) (dirname : String)
    (report : ComplianceReport) : Bool × ComplianceReport :=
  let path := base.joinName dirname
  let security := check_path_security fs path report.repository_path
  let report :=
    if security.is_symlink then
      if security.escapes_repo then
        report.add_warning WarningLevel.Critical
          ("Symlink directory " ++ dirname ++ " points outside repository to " ++
            ((security.target.map fun p => p.display).getD ""))
          (some path)
      else
        report.add_warning WarningLevel.Info
          (dirname ++ " is a symlink directory (within repository bounds)")
          (some path)
    else report
  (security.exists && fs.isDir path, report)

/-- The six documentation files probed after the README pair. -/
def other_required_docs : List String :=
  ["LICENSE.txt", "SECURITY.md", "CONTRIBUTING.md", "CODE_OF_CONDUCT.md",
   "MAINTAINERS.md", "CHANGELOG.md"]

/-- `check_documentation` from lib.rs. -/
def check_documentation (fs : FS) (report : ComplianceReport)
    (repo_path : RPath) : ComplianceReport :=
  let rm := check_file fs repo_path "README.md" report
  let readme_md := rm.1
  let ra := if !readme_md then check_file fs repo_path "README.adoc" rm.2
            else (false, rm.2)
  let readme_adoc := ra.1
  let report := ra.2.add_check "Documentation" "README.md"
    (readme_md || readme_adoc) ComplianceLevel.Bronze
  other_required_docs.foldl
    (fun report doc =>
      let e := check_file fs repo_path doc report
      e.2.add_check "Documentation" doc e.1 ComplianceLevel.Bronze)
    report

/-- `check_well_known` from lib.rs. -/
def check_well_known (fs : FS) (report : ComplianceReport)
    (repo_path : RPath) : ComplianceReport :=
  let hd := check_dir fs repo_path ".well-known" report
  let has_dir := hd.1
  let report := hd.2.add_check "Well-Known" ".well-known/ directory" has_dir
    ComplianceLevel.Bronze
  let well_known_path := repo_path.joinName ".well-known"
  ["security.txt", "ai.txt", "humans.txt"].foldl
    (fun report file =>
      let e := if has_dir then check_file fs well_known_path file report
               else (false, report)
      e.2.add_check "Well-Known" file e.1 ComplianceLevel.Bronze)
    report

/-- `check_build_system` from lib.rs. -/
def check_build_system (fs : FS) (report : ComplianceReport)
    (repo_path : RPath) : ComplianceReport :=
  [("justfile", ComplianceLevel.Bronze), ("flake.nix", ComplianceLevel.Bronze),
   (".gitlab-ci.yml", ComplianceLevel.Bronze)].foldl
    (fun report fl =>
      let e := check_file fs repo_path fl.1 report
      e.2.add_check "Build System" fl.1 e.1 fl.2)
    report

/-- `check_source_structure` from lib.rs (`||` short-circuits: `test` is
probed only when `tests` failed). -/
def check_source_structure (fs : FS) (report : ComplianceReport)
    (repo_path : RPath) : ComplianceReport :=
  let s := check_dir fs repo_path "src" report
  let has_src := s.1
  let t1 := check_dir fs repo_path "tests" s.2
  let t := if t1.1 then (true, t1.2) else check_dir fs repo_path "test" t1.2
  let has_tests := t.1
  let report := t.2.add_check "Source Structure" "src/ directory" has_src
    ComplianceLevel.Bronze
  report.add_check "Source Structure" "tests/ directory" has_tests
    ComplianceLevel.Bronze

/-- `verify_repository` from lib.rs. -/
def verify_repository (fs : FS) (repo_path : RPath) : ComplianceReport :=
  let report := ComplianceReport.new repo_path
  let report := check_documentation fs report repo_path
  let report := check_well_known fs report repo_path
  let report := check_build_system fs report repo_path
  check_source_structure fs report repo_path

/-! ## Spec-side definitions and helper lemmas -/

/-- Following the spec (§4.1 step 4): the raw symlink target resolved
against the parent directory of the inspected path when relative,
kept as-is when absolute. -/
def spec_resolvedTarget (path target : RPath) : RPath :=
  if target.absolute then target
  else
    match path.parent with
    | some par => par.join target
    | none => target

/-- Following the spec (§4.1 steps 5–6): canonicalize root and resolved
target with fallback to the uncanonicalized form, then flag an escape
exactly when the canonical root's segment sequence is not a prefix of the
canonical target's segment sequence (a segment-wise test, stated here
directly on the component lists). -/
def spec_escapesRoot (fs : FS) (path root target : RPath) : Bool :=
  let resolved := spec_resolvedTarget path target
  let canonical_root := (fs.canonicalize root).getD root
  let canonical_target := (fs.canonicalize resolved).getD resolved
  !(canonical_root.rcomponents.isPrefixOf canonical_target.rcomponents)

/-- The pure existence-probe value of `check_file`: `security.exists` is the
success of the link-aware stat, and the outcome conjoins `path.is_file()`. -/
def probeFile (fs : FS) (base : RPath) (name : String) : Bool :=
  (fs.symlinkMeta (base.joinName name)).isSome && fs.isFile (base.joinName name)

/-- The pure existence-probe value of `check_dir`. -/
def probeDir (fs : FS) (base : RPath) (name : String) : Bool :=
  (fs.symlinkMeta (base.joinName name)).isSome && fs.isDir (base.joinName name)

/-! ## Concrete filesystems used by the witnesses -/

/-- A concrete repository root, `/repo`. -/
def repoRoot : RPath := { absolute := true, components := ["repo"] }

/-- A filesystem where every metadata query fails (nothing exists). -/
def emptyFS : FS where
  symlinkMeta _ := none
  readLink _ := none
  canonicalize _ := none
  isFile _ := false
  isDir _ := false

/-- A filesystem where everything is a symlink whose raw target is
unreadable. -/
def brokenLinkFS : FS where
  symlinkMeta _ := some FileType.symlink
  readLink _ := none
  canonicalize _ := none
  isFile _ := false
  isDir _ := false

/-- A filesystem where everything is a symlink to `/etc/passwd` and
canonicalization is the identity. -/
def outsideLinkFS : FS where
  symlinkMeta _ := some FileType.symlink
  readLink _ := some { absolute := true, components := ["etc", "passwd"] }
  canonicalize p := some p
  isFile _ := true
  isDir _ := true

/-- A filesystem where everything is a symlink to `/repo/other` (inside the
root) and canonicalization is the identity. -/
def insideLinkFS : FS where
  symlinkMeta _ := some FileType.symlink
  readLink _ := some { absolute := true, components := ["repo", "other"] }
  canonicalize p := some p
  isFile _ := true
  isDir _ := true

/-- Directory names among the required entries. -/
def demoDirNames : List String := [".well-known", "src", "tests"]

/-- A filesystem where every path exists as a plain file, except that the
required directory names are plain directories. -/
def demoFS : FS where
  symlinkMeta p :=
    some (if demoDirNames.contains (p.components.getLastD "") then FileType.dir
          else FileType.file)
  readLink _ := none
  canonicalize p := some p
  isFile p := !demoDirNames.contains (p.components.getLastD "")
  isDir p := demoDirNames.contains (p.components.getLastD "")

/-- A filesystem where `README.md` is a plain file, `README.adoc` is a
symlink pointing to `/etc/passwd`, and every other path is absent. -/
def readmeFS : FS where
  symlinkMeta p :=
    if p.components.getLastD "" = "README.md" then some FileType.file
    else if p.components.getLastD "" = "README.adoc" then some FileType.symlink
    else none
  readLink p :=
    if p.components.getLastD "" = "README.adoc" then
      some { absolute := true, components := ["etc", "passwd"] }
    else none
  canonicalize p := some p
  isFile p := p.components.getLastD "" = "README.md"
  isDir _ := false

/-- Category/item signature of a check entry. -/
def sigOf (c : CheckResult) : String × String := (c.category, c.item)

/-- The sixteen category/item signatures of a verification run. -/
def fullBattery : List (String × String) :=
  [("Documentation", "README.md"), ("Documentation", "LICENSE.txt"),
   ("Documentation", "SECURITY.md"), ("Documentation", "CONTRIBUTING.md"),
   ("Documentation", "CODE_OF_CONDUCT.md"), ("Documentation", "MAINTAINERS.md"),
   ("Documentation", "CHANGELOG.md"),
   ("Well-Known", ".well-known/ directory"), ("Well-Known", "security.txt"),
   ("Well-Known", "ai.txt"), ("Well-Known", "humans.txt"),
   ("Build System", "justfile"), ("Build System", "flake.nix"),
   ("Build System", ".gitlab-ci.yml"),
   ("Source Structure", "src/ directory"),
   ("Source Structure", "tests/ directory")]

/-- The `.well-known` sub-files. -/
def wellKnownFiles : List String := ["security.txt", "ai.txt", "humans.txt"]

/-- The build-system files. -/
def buildFiles : List String := ["justfile", "flake.nix", ".gitlab-ci.yml"]

/-- The entry at `p` is a plain (non-symlink) regular file. -/
def filePlain (fs : FS) (p : RPath) : Prop :=
  fs.symlinkMeta p = some FileType.file ∧ fs.isFile p = true

/-- The entry at `p` is a plain (non-symlink) directory. -/
def dirPlain (fs : FS) (p : RPath) : Prop :=
  fs.symlinkMeta p = some FileType.dir ∧ fs.isDir p = true

instance (fs : FS) (p : RPath) : Decidable (filePlain fs p) :=
  inferInstanceAs (Decidable (_ ∧ _))

instance (fs : FS) (p : RPath) : Decidable (dirPlain fs p) :=
  inferInstanceAs (Decidable (_ ∧ _))

/-- All 16 required entries exist under `root` as plain files/directories
of the expected types. -/
def PlainRepo (fs : FS) (root : RPath) : Prop :=
  filePlain fs (root.joinName "README.md") ∧
  (∀ d ∈ other_required_docs, filePlain fs (root.joinName d)) ∧
  dirPlain fs (root.joinName ".well-known") ∧
  (∀ f ∈ wellKnownFiles, filePlain fs ((root.joinName ".well-known").joinName f)) ∧
  (∀ f ∈ buildFiles, filePlain fs (root.joinName f)) ∧
  dirPlain fs (root.joinName "src") ∧
  dirPlain fs (root.joinName "tests")

instance (fs : FS) (root : RPath) : Decidable (PlainRepo fs root) :=
  inferInstanceAs (Decidable (_ ∧ _))

/-- A report whose single check passed but which carries one Critical
warning. -/
def criticalReport : ComplianceReport :=
  { checks := [{ category := "Documentation", item := "README.md",
                 passed := true, required_for := ComplianceLevel.Bronze,
                 description := none }],
    warnings := [{ level := WarningLevel.Critical,
                   message := "Symlink LICENSE.txt points outside repository",
                   path := none }],
    repository_path := repoRoot }


/-! ## Lemmas and claims -/

theorem add_check_checks (r : ComplianceReport) (c i : String) (p : Bool)
    (l : ComplianceLevel) :
    (r.add_check c i p l).checks = r.checks ++
      [{ category := c, item := i, passed := p, required_for := l,
         description := none }] := rfl

theorem add_check_warnings (r : ComplianceReport) (c i : String) (p : Bool)
    (l : ComplianceLevel) : (r.add_check c i p l).warnings = r.warnings := rfl

theorem add_check_repo (r : ComplianceReport) (c i : String) (p : Bool)
    (l : ComplianceLevel) :
    (r.add_check c i p l).repository_path = r.repository_path := rfl

theorem add_warning_checks (r : ComplianceReport) (l : WarningLevel)
    (m : String) (p : Option RPath) : (r.add_warning l m p).checks = r.checks := rfl

theorem add_warning_repo (r : ComplianceReport) (l : WarningLevel)
    (m : String) (p : Option RPath) :
    (r.add_warning l m p).repository_path = r.repository_path := rfl

theorem check_file_snd_checks (fs : FS) (b : RPath) (n : String)
    (r : ComplianceReport) : ((check_file fs b n r).2).checks = r.checks := by
  unfold check_file
  dsimp only
  split
  · split <;> rfl
  · rfl

theorem check_file_snd_repo (fs : FS) (b : RPath) (n : String)
    (r : ComplianceReport) :
    ((check_file fs b n r).2).repository_path = r.repository_path := by
  unfold check_file
  dsimp only
  split
  · split <;> rfl
  · rfl

theorem check_dir_snd_checks (fs : FS) (b : RPath) (n : String)
    (r : ComplianceReport) : ((check_dir fs b n r).2).checks = r.checks := by
  unfold check_dir
  dsimp only
  split
  · split <;> rfl
  · rfl

theorem check_dir_snd_repo (fs : FS) (b : RPath) (n : String)
    (r : ComplianceReport) :
    ((check_dir fs b n r).2).repository_path = r.repository_path := by
  unfold check_dir
  dsimp only
  split
  · split <;> rfl
  · rfl

theorem check_file_fst (fs : FS) (b : RPath) (n : String)
    (r : ComplianceReport) : (check_file fs b n r).1 = probeFile fs b n := by
  unfold check_file probeFile check_path_security
  cases h : fs.symlinkMeta (b.joinName n) with
  | none => simp [h]
  | some ft =>
      cases ft <;> simp [h] <;> cases fs.readLink (b.joinName n) <;> simp

theorem check_dir_fst (fs : FS) (b : RPath) (n : String)
    (r : ComplianceReport) : (check_dir fs b n r).1 = probeDir fs b n := by
  unfold check_dir probeDir check_path_security
  cases h : fs.symlinkMeta (b.joinName n) with
  | none => simp [h]
  | some ft =>
      cases ft <;> simp [h] <;> cases fs.readLink (b.joinName n) <;> simp

/-- Shared helper: on a symlink with readable raw target, `check_path_security`
returns the record built from the spec-side resolution and escape test. -/
theorem cps_symlink_eq (fs : FS) (path root target : RPath)
    (hm : fs.symlinkMeta path = some FileType.symlink)
    (hl : fs.readLink path = some target) :
    check_path_security fs path root =
      { «exists» := true, is_symlink := true,
        escapes_repo := spec_escapesRoot fs path root target,
        target := some (spec_resolvedTarget path target) } := by
  have hres : (Option.map (fun p => p.join target) path.parent).getD target =
      (match path.parent with
       | some par => par.join target
       | none => target) := by
    cases path.parent <;> rfl
  unfold check_path_security spec_escapesRoot spec_resolvedTarget
  rw [hm]
  simp only [hl, RPath.startsWith, RPath.isAbsolute, hres]
  simp

/-- A non-symlink entry: `check_file` leaves the report untouched and
returns `path.is_file()`. -/
theorem check_file_nonlink (fs : FS) (b : RPath) (n : String) (ft : FileType)
    (hm : fs.symlinkMeta (b.joinName n) = some ft)
    (hft : ft ≠ FileType.symlink) :
    ∀ r : ComplianceReport, check_file fs b n r = (fs.isFile (b.joinName n), r) := by
  intro r
  simp [check_file, check_path_security, hm, hft]

/-- A non-symlink entry: `check_dir` leaves the report untouched and
returns `path.is_dir()`. -/
theorem check_dir_nonlink (fs : FS) (b : RPath) (n : String) (ft : FileType)
    (hm : fs.symlinkMeta (b.joinName n) = some ft)
    (hft : ft ≠ FileType.symlink) :
    ∀ r : ComplianceReport, check_dir fs b n r = (fs.isDir (b.joinName n), r) := by
  intro r
  simp [check_dir, check_path_security, hm, hft]

/-- An absent entry: `check_file` leaves the report untouched and fails. -/
theorem check_file_absent (fs : FS) (b : RPath) (n : String)
    (hm : fs.symlinkMeta (b.joinName n) = none) :
    ∀ r : ComplianceReport, check_file fs b n r = (false, r) := by
  intro r
  simp [check_file, check_path_security, hm]

/-! ## Claims -/

/-- C1: for a symlink whose raw target can be read, `check_path_security`
resolves a relative target against the parent directory of the inspected
path (an absolute target is used as-is), canonicalizes root and resolved
target with fallback to the uncanonicalized form, and sets `escapes_repo`
exactly when the canonical root's segment sequence is not a prefix of the
canonical target's segment sequence.  The final two conjuncts separate this
segment-wise test from a raw-string prefix test: `/repo` is a string prefix
of `/repository`, yet the segment test rejects it. -/
theorem inspect_symlink_resolution_and_escape (fs : FS) (path root target : RPath)
    (hm : fs.symlinkMeta path = some FileType.symlink)
    (hl : fs.readLink path = some target) :
    check_path_security fs path root =
      { «exists» := true, is_symlink := true,
        escapes_repo := spec_escapesRoot fs path root target,
        target := some (spec_resolvedTarget path target) } ∧
    RPath.startsWith { absolute := true, components := ["repository"] }
        { absolute := true, components := ["repo"] } = false ∧
    (RPath.display { absolute := true, components := ["repo"] }).toList.isPrefixOf
        (RPath.display { absolute := true, components := ["repository"] }).toList = true :=
  ⟨cps_symlink_eq fs path root target hm hl, by decide, by decide⟩

theorem inspect_symlink_resolution_and_escape_witness :
    check_path_security outsideLinkFS (repoRoot.joinName "LICENSE.txt") repoRoot =
      { «exists» := true, is_symlink := true,
        escapes_repo := spec_escapesRoot outsideLinkFS
          (repoRoot.joinName "LICENSE.txt") repoRoot
          { absolute := true, components := ["etc", "passwd"] },
        target := some (spec_resolvedTarget (repoRoot.joinName "LICENSE.txt")
          { absolute := true, components := ["etc", "passwd"] }) } :=
  (inspect_symlink_resolution_and_escape outsideLinkFS
    (repoRoot.joinName "LICENSE.txt") repoRoot
    { absolute := true, components := ["etc", "passwd"] } rfl rfl).1

/-- C5: when the link-aware stat fails, `check_path_security` returns
`exists=false`, `is_symlink=false`, `escapes_repo=false`, no target.  The
embedding is a total function: an absent path is a normal return value,
never an error. -/
theorem inspect_absent_path (fs : FS) (path root : RPath)
    (h : fs.symlinkMeta path = none) :
    check_path_security fs path root =
      { «exists» := false, is_symlink := false, escapes_repo := false,
        target := none } := by
  unfold check_path_security
  rw [h]

theorem inspect_absent_path_witness :
    check_path_security emptyFS (repoRoot.joinName "README.md") repoRoot =
      { «exists» := false, is_symlink := false, escapes_repo := false,
        target := none } :=
  inspect_absent_path emptyFS (repoRoot.joinName "README.md") repoRoot rfl

/-- C6: a symlink whose raw target cannot be read yields `exists=true`,
`is_symlink=true`, `escapes_repo=false`, no target — the indeterminate
escape status defaults to not-flagged rather than to an error. -/
theorem inspect_unreadable_link_target (fs : FS) (path root : RPath)
    (hm : fs.symlinkMeta path = some FileType.symlink)
    (hl : fs.readLink path = none) :
    check_path_security fs path root =
      { «exists» := true, is_symlink := true, escapes_repo := false,
        target := none } := by
  unfold check_path_security
  rw [hm]
  simp [hl]

theorem inspect_unreadable_link_target_witness :
    check_path_security brokenLinkFS (repoRoot.joinName "README.md") repoRoot =
      { «exists» := true, is_symlink := true, escapes_repo := false,
        target := none } :=
  inspect_unreadable_link_target brokenLinkFS (repoRoot.joinName "README.md")
    repoRoot rfl rfl

/-- Shared helper: on a symlink with readable raw target, `check_file`
returns `path.is_file()` and appends exactly the one warning selected by the
escape test. -/
theorem check_file_symlink (fs : FS) (b : RPath) (n : String) (target : RPath)
    (hm : fs.symlinkMeta (b.joinName n) = some FileType.symlink)
    (hl : fs.readLink (b.joinName n) = some target) :
    ∀ r : ComplianceReport, check_file fs b n r =
      (fs.isFile (b.joinName n),
       if spec_escapesRoot fs (b.joinName n) r.repository_path target then
         r.add_warning WarningLevel.Critical
           ("Symlink " ++ n ++ " points outside repository to " ++
             (spec_resolvedTarget (b.joinName n) target).display)
           (some (b.joinName n))
       else
         r.add_warning WarningLevel.Info
           (n ++ " is a symlink (within repository bounds)")
           (some (b.joinName n))) := by
  intro r
  have h := cps_symlink_eq fs (b.joinName n) r.repository_path target hm hl
  simp [check_file, h]

/-- Shared helper: the `check_dir` twin of `check_file_symlink`. -/
theorem check_dir_symlink (fs : FS) (b : RPath) (n : String) (target : RPath)
    (hm : fs.symlinkMeta (b.joinName n) = some FileType.symlink)
    (hl : fs.readLink (b.joinName n) = some target) :
    ∀ r : ComplianceReport, check_dir fs b n r =
      (fs.isDir (b.joinName n),
       if spec_escapesRoot fs (b.joinName n) r.repository_path target then
         r.add_warning WarningLevel.Critical
           ("Symlink directory " ++ n ++ " points outside repository to " ++
             (spec_resolvedTarget (b.joinName n) target).display)
           (some (b.joinName n))
       else
         r.add_warning WarningLevel.Info
           (n ++ " is a symlink directory (within repository bounds)")
           (some (b.joinName n))) := by
  intro r
  have h := cps_symlink_eq fs (b.joinName n) r.repository_path target hm hl
  simp [check_dir, h]

/-- C3: a probed symlink whose canonical target lies outside the repository
root makes both probe flavours append exactly one Critical warning, while
the pass/fail outcome is still `is_file()` / `is_dir()` of the probed path
(the resolved target's type) — the escape alone never fails the check. -/
theorem escaping_symlink_probe (fs : FS) (b : RPath) (n : String)
    (target : RPath) (r : ComplianceReport)
    (hm : fs.symlinkMeta (b.joinName n) = some FileType.symlink)
    (hl : fs.readLink (b.joinName n) = some target)
    (hesc : spec_escapesRoot fs (b.joinName n) r.repository_path target = true) :
    check_file fs b n r =
      (fs.isFile (b.joinName n),
       { r with warnings := r.warnings ++
          [{ level := WarningLevel.Critical,
             message := "Symlink " ++ n ++ " points outside repository to " ++
               (spec_resolvedTarget (b.joinName n) target).display,
             path := some (b.joinName n) }] }) ∧
    check_dir fs b n r =
      (fs.isDir (b.joinName n),
       { r with warnings := r.warnings ++
          [{ level := WarningLevel.Critical,
             message := "Symlink directory " ++ n ++
               " points outside repository to " ++
               (spec_resolvedTarget (b.joinName n) target).display,
             path := some (b.joinName n) }] }) := by
  constructor
  · rw [check_file_symlink fs b n target hm hl r, hesc]
    rfl
  · rw [check_dir_symlink fs b n target hm hl r, hesc]
    rfl

theorem escaping_symlink_probe_witness :
    check_file outsideLinkFS repoRoot "LICENSE.txt" (ComplianceReport.new repoRoot) =
      (outsideLinkFS.isFile (repoRoot.joinName "LICENSE.txt"),
       { ComplianceReport.new repoRoot with warnings :=
          (ComplianceReport.new repoRoot).warnings ++
          [{ level := WarningLevel.Critical,
             message := "Symlink " ++ "LICENSE.txt" ++
               " points outside repository to " ++
               (spec_resolvedTarget (repoRoot.joinName "LICENSE.txt")
                 { absolute := true, components := ["etc", "passwd"] }).display,
             path := some (repoRoot.joinName "LICENSE.txt") }] }) :=
  (escaping_symlink_probe outsideLinkFS repoRoot "LICENSE.txt"
    { absolute := true, components := ["etc", "passwd"] }
    (ComplianceReport.new repoRoot) rfl rfl (by decide)).1

/-- C4: a probed symlink whose canonical target lies within the repository
root makes both probe flavours append exactly one Info warning (never a
Critical one), and the check counts as existing exactly when the resolved
target has the expected type: the outcome is `is_file()` / `is_dir()` of
the probed path. -/
theorem inside_symlink_probe (fs : FS) (b : RPath) (n : String)
    (target : RPath) (r : ComplianceReport)
    (hm : fs.symlinkMeta (b.joinName n) = some FileType.symlink)
    (hl : fs.readLink (b.joinName n) = some target)
    (hesc : spec_escapesRoot fs (b.joinName n) r.repository_path target = false) :
    check_file fs b n r =
      (fs.isFile (b.joinName n),
       { r with warnings := r.warnings ++
          [{ level := WarningLevel.Info,
             message := n ++ " is a symlink (within repository bounds)",
             path := some (b.joinName n) }] }) ∧
    check_dir fs b n r =
      (fs.isDir (b.joinName n),
       { r with warnings := r.warnings ++
          [{ level := WarningLevel.Info,
             message := n ++ " is a symlink directory (within repository bounds)",
             path := some (b.joinName n) }] }) := by
  constructor
  · rw [check_file_symlink fs b n target hm hl r, hesc]
    rfl
  · rw [check_dir_symlink fs b n target hm hl r, hesc]
    rfl

theorem inside_symlink_probe_witness :
    check_file insideLinkFS repoRoot "LICENSE.txt" (ComplianceReport.new repoRoot) =
      (insideLinkFS.isFile (repoRoot.joinName "LICENSE.txt"),
       { ComplianceReport.new repoRoot with warnings :=
          (ComplianceReport.new repoRoot).warnings ++
          [{ level := WarningLevel.Info,
             message := "LICENSE.txt" ++ " is a symlink (within repository bounds)",
             path := some (repoRoot.joinName "LICENSE.txt") }] }) :=
  (inside_symlink_probe insideLinkFS repoRoot "LICENSE.txt"
    { absolute := true, components := ["repo", "other"] }
    (ComplianceReport.new repoRoot) rfl rfl (by decide)).1

theorem ite_probe_file_checks (c : Prop) [Decidable c] (fs : FS) (b : RPath)
    (n : String) (r : ComplianceReport) :
    ((if c then check_file fs b n r else (false, r)).2).checks = r.checks := by
  split <;> simp [check_file_snd_checks]

theorem ite_probe_dir_checks (c : Prop) [Decidable c] (fs : FS) (b : RPath)
    (n : String) (r : ComplianceReport) :
    ((if c then (true, r) else check_dir fs b n r).2).checks = r.checks := by
  split <;> simp [check_dir_snd_checks]

theorem check_documentation_sig (fs : FS) (r : ComplianceReport) (p : RPath) :
    (check_documentation fs r p).checks.map sigOf =
      r.checks.map sigOf ++
      [("Documentation", "README.md"), ("Documentation", "LICENSE.txt"),
       ("Documentation", "SECURITY.md"), ("Documentation", "CONTRIBUTING.md"),
       ("Documentation", "CODE_OF_CONDUCT.md"),
       ("Documentation", "MAINTAINERS.md"), ("Documentation", "CHANGELOG.md")] := by
  simp [check_documentation, other_required_docs, ComplianceReport.add_check,
    check_file_snd_checks, ite_probe_file_checks, sigOf]

theorem check_well_known_sig (fs : FS) (r : ComplianceReport) (p : RPath) :
    (check_well_known fs r p).checks.map sigOf =
      r.checks.map sigOf ++
      [("Well-Known", ".well-known/ directory"), ("Well-Known", "security.txt"),
       ("Well-Known", "ai.txt"), ("Well-Known", "humans.txt")] := by
  simp [check_well_known, ComplianceReport.add_check, check_dir_snd_checks,
    check_file_snd_checks, ite_probe_file_checks, sigOf]

theorem check_build_system_sig (fs : FS) (r : ComplianceReport) (p : RPath) :
    (check_build_system fs r p).checks.map sigOf =
      r.checks.map sigOf ++
      [("Build System", "justfile"), ("Build System", "flake.nix"),
       ("Build System", ".gitlab-ci.yml")] := by
  simp [check_build_system, ComplianceReport.add_check, check_file_snd_checks,
    sigOf]

theorem check_source_structure_sig (fs : FS) (r : ComplianceReport) (p : RPath) :
    (check_source_structure fs r p).checks.map sigOf =
      r.checks.map sigOf ++
      [("Source Structure", "src/ directory"),
       ("Source Structure", "tests/ directory")] := by
  simp [check_source_structure, ComplianceReport.add_check,
    check_dir_snd_checks, ite_probe_dir_checks, sigOf]

/-- Shared helper: the check battery of every run has exactly the sixteen
fixed signatures, in order, for every filesystem state. -/
theorem verify_repository_sig (fs : FS) (root : RPath) :
    (verify_repository fs root).checks.map sigOf = fullBattery := by
  simp only [verify_repository]
  rw [check_source_structure_sig, check_build_system_sig, check_well_known_sig,
    check_documentation_sig]
  simp [ComplianceReport.new, fullBattery]

/-- C2: for every repository root and every filesystem state, the report's
checks sequence has exactly 16 elements, in the fixed order 7 Documentation,
then 4 Well-Known, then 3 Build System, then 2 Source Structure. -/
theorem verify_repository_check_battery (fs : FS) (root : RPath) :
    (verify_repository fs root).checks.length = 16 ∧
    (verify_repository fs root).checks.map (fun c => c.category) =
      List.replicate 7 "Documentation" ++ List.replicate 4 "Well-Known" ++
      List.replicate 3 "Build System" ++
      List.replicate 2 "Source Structure" := by
  have h := verify_repository_sig fs root
  constructor
  · have := congrArg List.length h
    simpa [fullBattery] using this
  · have h2 : (fun c : CheckResult => c.category) =
        (Prod.fst ∘ sigOf) := rfl
    rw [h2, ← List.map_map, h]
    rfl

/-- Shared helper: a plain regular file makes `check_file` succeed without
touching the report. -/
theorem check_file_plainFile (fs : FS) (b : RPath) (n : String)
    (hm : fs.symlinkMeta (b.joinName n) = some FileType.file)
    (hf : fs.isFile (b.joinName n) = true) :
    ∀ r : ComplianceReport, check_file fs b n r = (true, r) := by
  intro r
  rw [check_file_nonlink fs b n FileType.file hm (by decide) r, hf]

/-- Shared helper: a plain directory makes `check_dir` succeed without
touching the report. -/
theorem check_dir_plainDir (fs : FS) (b : RPath) (n : String)
    (hm : fs.symlinkMeta (b.joinName n) = some FileType.dir)
    (hd : fs.isDir (b.joinName n) = true) :
    ∀ r : ComplianceReport, check_dir fs b n r = (true, r) := by
  intro r
  rw [check_dir_nonlink fs b n FileType.dir hm (by decide) r, hd]

set_option maxHeartbeats 1600000 in
/-- C7: a repository whose 16 required entries are all plain files and
directories of the expected types yields `passed == total == 16` and
Bronze compliance. -/
theorem verify_plain_repo (fs : FS) (root : RPath) (h : PlainRepo fs root) :
    (verify_repository fs root).passed_count = 16 ∧
    (verify_repository fs root).total_count = 16 ∧
    (verify_repository fs root).bronze_compliance = true := by
  obtain ⟨hmd, hdocs, hwk, hwkf, hbf, hsrc, htests⟩ := h
  simp only [other_required_docs, wellKnownFiles, buildFiles, List.mem_cons,
    List.not_mem_nil, or_false, forall_eq_or_imp, forall_eq] at hdocs hwkf hbf
  obtain ⟨hlic, hsec, hcon, hcoc, hmai, hcha⟩ := hdocs
  obtain ⟨hsectxt, hai, hhum⟩ := hwkf
  obtain ⟨hjust, hflake, hci⟩ := hbf
  simp only [verify_repository, check_documentation, check_well_known,
    check_build_system, check_source_structure, other_required_docs,
    List.foldl_cons, List.foldl_nil,
    check_file_plainFile fs root "README.md" hmd.1 hmd.2,
    check_file_plainFile fs root "LICENSE.txt" hlic.1 hlic.2,
    check_file_plainFile fs root "SECURITY.md" hsec.1 hsec.2,
    check_file_plainFile fs root "CONTRIBUTING.md" hcon.1 hcon.2,
    check_file_plainFile fs root "CODE_OF_CONDUCT.md" hcoc.1 hcoc.2,
    check_file_plainFile fs root "MAINTAINERS.md" hmai.1 hmai.2,
    check_file_plainFile fs root "CHANGELOG.md" hcha.1 hcha.2,
    check_dir_plainDir fs root ".well-known" hwk.1 hwk.2,
    check_file_plainFile fs (root.joinName ".well-known") "security.txt"
      hsectxt.1 hsectxt.2,
    check_file_plainFile fs (root.joinName ".well-known") "ai.txt" hai.1 hai.2,
    check_file_plainFile fs (root.joinName ".well-known") "humans.txt"
      hhum.1 hhum.2,
    check_file_plainFile fs root "justfile" hjust.1 hjust.2,
    check_file_plainFile fs root "flake.nix" hflake.1 hflake.2,
    check_file_plainFile fs root ".gitlab-ci.yml" hci.1 hci.2,
    check_dir_plainDir fs root "src" hsrc.1 hsrc.2,
    check_dir_plainDir fs root "tests" htests.1 htests.2]
  refine ⟨?_, ?_, ?_⟩ <;> rfl

theorem verify_plain_repo_witness :
    (verify_repository demoFS repoRoot).passed_count = 16 ∧
    (verify_repository demoFS repoRoot).total_count = 16 ∧
    (verify_repository demoFS repoRoot).bronze_compliance = true :=
  verify_plain_repo demoFS repoRoot (by decide)

/-- Shared helper: probing a path that is not a symlink never touches the
report. -/
theorem check_file_no_warning (fs : FS) (b : RPath) (n : String)
    (h : fs.symlinkMeta (b.joinName n) ≠ some FileType.symlink) :
    ∀ r : ComplianceReport, (check_file fs b n r).2 = r := by
  intro r
  cases hm : fs.symlinkMeta (b.joinName n) with
  | none => rw [check_file_absent fs b n hm]
  | some ft =>
      cases ft with
      | symlink => exact absurd hm h
      | file => rw [check_file_nonlink fs b n FileType.file hm (by decide)]
      | dir => rw [check_file_nonlink fs b n FileType.dir hm (by decide)]

/-- Shared helper: the checks appended by `check_documentation` with their
pass/fail values in terms of the pure probe values. -/
theorem check_documentation_checks (fs : FS) (r : ComplianceReport)
    (root : RPath) :
    (check_documentation fs r root).checks =
      r.checks ++
      [{ category := "Documentation", item := "README.md",
         passed := probeFile fs root "README.md" || probeFile fs root "README.adoc",
         required_for := ComplianceLevel.Bronze, description := none },
       { category := "Documentation", item := "LICENSE.txt",
         passed := probeFile fs root "LICENSE.txt",
         required_for := ComplianceLevel.Bronze, description := none },
       { category := "Documentation", item := "SECURITY.md",
         passed := probeFile fs root "SECURITY.md",
         required_for := ComplianceLevel.Bronze, description := none },
       { category := "Documentation", item := "CONTRIBUTING.md",
         passed := probeFile fs root "CONTRIBUTING.md",
         required_for := ComplianceLevel.Bronze, description := none },
       { category := "Documentation", item := "CODE_OF_CONDUCT.md",
         passed := probeFile fs root "CODE_OF_CONDUCT.md",
         required_for := ComplianceLevel.Bronze, description := none },
       { category := "Documentation", item := "MAINTAINERS.md",
         passed := probeFile fs root "MAINTAINERS.md",
         required_for := ComplianceLevel.Bronze, description := none },
       { category := "Documentation", item := "CHANGELOG.md",
         passed := probeFile fs root "CHANGELOG.md",
         required_for := ComplianceLevel.Bronze, description := none }] := by
  simp only [check_documentation, other_required_docs, List.foldl_cons,
    List.foldl_nil]
  cases h : probeFile fs root "README.md" <;>
    simp [check_file_fst, check_file_snd_checks, ComplianceReport.add_check, h]

/-- C8: the README pair contributes exactly one check entry, named
"README.md" (and none named "README.adoc"), which passes exactly when
either probe is positive — the two files are mutually substitutable.  The
final conjunct shows the positive `README.md` probe short-circuits the
`README.adoc` probe: when `README.md` is a plain file and no other
documentation path is a symlink, no warning is emitted at all, with no
assumption whatsoever on the state of `README.adoc` (which may be an
escaping symlink). -/
theorem readme_precheck (fs : FS) (r : ComplianceReport) (root : RPath) :
    (check_documentation fs r root).checks[r.checks.length]? =
      some { category := "Documentation", item := "README.md",
             passed := probeFile fs root "README.md" ||
               probeFile fs root "README.adoc",
             required_for := ComplianceLevel.Bronze, description := none } ∧
    ((check_documentation fs r root).checks.filter
        fun c => c.item = "README.md").length =
      (r.checks.filter fun c => c.item = "README.md").length + 1 ∧
    ((check_documentation fs r root).checks.filter
        fun c => c.item = "README.adoc").length =
      (r.checks.filter fun c => c.item = "README.adoc").length ∧
    (fs.symlinkMeta (root.joinName "README.md") = some FileType.file →
     fs.isFile (root.joinName "README.md") = true →
     (∀ d ∈ other_required_docs,
       fs.symlinkMeta (root.joinName d) ≠ some FileType.symlink) →
     (check_documentation fs r root).warnings = r.warnings) := by
  refine ⟨?_, ?_, ?_, ?_⟩
  · rw [check_documentation_checks,
      List.getElem?_append_right (Nat.le_refl r.checks.length)]
    simp
  · rw [check_documentation_checks, List.filter_append, List.length_append]
    simp
  · rw [check_documentation_checks, List.filter_append, List.length_append]
    simp
  · intro h1 h2 h3
    simp only [other_required_docs, List.mem_cons, List.not_mem_nil, or_false,
      forall_eq_or_imp, forall_eq] at h3
    obtain ⟨n1, n2, n3, n4, n5, n6⟩ := h3
    simp only [check_documentation, other_required_docs, List.foldl_cons,
      List.foldl_nil,
      check_file_plainFile fs root "README.md" h1 h2,
      check_file_no_warning fs root "LICENSE.txt" n1,
      check_file_no_warning fs root "SECURITY.md" n2,
      check_file_no_warning fs root "CONTRIBUTING.md" n3,
      check_file_no_warning fs root "CODE_OF_CONDUCT.md" n4,
      check_file_no_warning fs root "MAINTAINERS.md" n5,
      check_file_no_warning fs root "CHANGELOG.md" n6]
    simp [ComplianceReport.add_check]

theorem readme_precheck_witness :
    (check_documentation readmeFS (ComplianceReport.new repoRoot)
        repoRoot).warnings = (ComplianceReport.new repoRoot).warnings :=
  (readme_precheck readmeFS (ComplianceReport.new repoRoot) repoRoot).2.2.2
    rfl rfl (by decide)

/-- C9: passed count never exceeds total count; the percentage equals
passed/total × 100 whenever the total is nonzero, always lies in [0, 100],
and a total of 0 yields 0 rather than a division fault. -/
theorem percentage_bounds (r : ComplianceReport) :
    r.passed_count ≤ r.total_count ∧
    0 ≤ r.percentage ∧ r.percentage ≤ 100 ∧
    (r.total_count = 0 → r.percentage = 0) ∧
    (r.total_count ≠ 0 →
      r.percentage = (r.passed_count : ℚ) / (r.total_count : ℚ) * 100) := by
  have hle : r.passed_count ≤ r.total_count :=
    List.length_filter_le _ r.checks
  refine ⟨hle, ?_, ?_, fun h => by simp [ComplianceReport.percentage, h],
    fun h => by simp [ComplianceReport.percentage, h]⟩
  · unfold ComplianceReport.percentage
    split
    · norm_num
    · positivity
  · unfold ComplianceReport.percentage
    split
    · norm_num
    · rename_i h
      have h0 : (0 : ℚ) < (r.total_count : ℚ) := by
        exact_mod_cast Nat.pos_of_ne_zero h
      rw [div_mul_eq_mul_div, div_le_iff h0]
      have hc : (r.passed_count : ℚ) ≤ (r.total_count : ℚ) := by
        exact_mod_cast hle
      nlinarith

theorem percentage_bounds_witness :
    (ComplianceReport.new repoRoot).percentage = 0 :=
  (percentage_bounds (ComplianceReport.new repoRoot)).2.2.2.1 rfl

/-- C10: any Critical warning forces the achieved compliance level to
`none`, even when every check passed (the witness exhibits a report with
all checks passed and one Critical warning). -/
theorem critical_denies_level (r : ComplianceReport)
    (h : r.has_critical_warnings = true) : r.highest_level = none := by
  simp [ComplianceReport.highest_level, h]

theorem critical_denies_level_witness :
    criticalReport.passed_count = criticalReport.total_count ∧
    criticalReport.bronze_compliance = true ∧
    criticalReport.highest_level = none :=
  ⟨by decide, by decide, critical_denies_level criticalReport (by decide)⟩
